import Mathlib

/-!
Verification development for the terminal color-scheme core
(`colorscheme.h`): the `ColorScheme` palette with deterministic seeded
HSV perturbation, the KDE 3 legacy `.schema` reader, and the
`ColorSchemeManager` cache.  The repository ships only the interface
header; the bodies of the declared operations are modelled from the
specification, as marked on each definition.
-/

/-- Number of entries in a color palette: default foreground, default
background, 8 standard ANSI colors and 8 intense ANSI colors.
Modelled from the spec: `TABLE_COLORS` is declared in the (absent)
`charactercolor.h`; the spec fixes slot 0 = foreground, slot 1 =
background, and 16 further ANSI slots. -/
def TABLE_COLORS : Nat := 18

/-- Index of the default background slot.  Modelled from the spec:
slot 1 is the default background. -/
def DEFAULT_BACK_COLOR : Nat := 1

/-- An RGB color with components in 0..255. -/
structure RGB where
  r : Nat
  g : Nat
  b : Nat
deriving DecidableEq

/-- Tri-state bold attribute of a color slot.  Modelled from the spec:
`ColorEntry` is declared in the (absent) `charactercolor.h`; the spec
gives bold as a tri-state force-on / force-off / inherit. -/
inductive FontWeight
  | bold
  | normal
  | useCurrentFormat
deriving DecidableEq

/-- A single palette slot: base color, bold attribute, transparency.
Modelled from the spec: declared in the (absent) `charactercolor.h`. -/
structure ColorEntry where
  color : RGB
  bold : FontWeight
  transparent : Bool
deriving DecidableEq

/-- How much a particular palette color may be randomized
(`ColorScheme::RandomizationRange`, from the source header: hue is a
`quint16`, saturation and value `quint8`, all zero-initialised). -/
structure RandomizationRange where
  hue : Nat := 0
  saturation : Nat := 0
  value : Nat := 0
deriving DecidableEq

/-- `RandomizationRange::isNull`, from the source header: true iff hue,
saturation and value are all zero. -/
def RandomizationRange.isNull (r : RandomizationRange) : Bool :=
  r.hue == 0 && r.saturation == 0 && r.value == 0

/-- A color scheme: description, name, opacity, optional custom table
(`none` means the built-in default table), optional randomization table,
and whether the background slot participates in randomization.
Fields mirror the source header's private members; the background flag
is modelled from the spec (§3 `randomizeBackgroundFlag`). -/
structure ColorScheme where
  description : String
  name : String
  opacity : Rat
  table : Option (List ColorEntry)
  randomTable : Option (List RandomizationRange)
  randomizeBackground : Bool
deriving DecidableEq

/-- Modelled from the spec: the built-in default palette (the concrete
`defaultTable` colors live in the absent `colorscheme.cpp`; any fixed
18-entry palette realises the spec, slot 0 = foreground, slot 1 =
background, then 8 standard and 8 intense ANSI colors). -/
def defaultTable : List ColorEntry :=
  [ ⟨⟨0x00, 0x00, 0x00⟩, .useCurrentFormat, false⟩,  -- default foreground
    ⟨⟨0xFF, 0xFF, 0xFF⟩, .useCurrentFormat, false⟩,  -- default background
    ⟨⟨0x00, 0x00, 0x00⟩, .useCurrentFormat, false⟩,  -- black
    ⟨⟨0xB2, 0x18, 0x18⟩, .useCurrentFormat, false⟩,  -- red
    ⟨⟨0x18, 0xB2, 0x18⟩, .useCurrentFormat, false⟩,  -- green
    ⟨⟨0xB2, 0x68, 0x18⟩, .useCurrentFormat, false⟩,  -- yellow
    ⟨⟨0x18, 0x18, 0xB2⟩, .useCurrentFormat, false⟩,  -- blue
    ⟨⟨0xB2, 0x18, 0xB2⟩, .useCurrentFormat, false⟩,  -- magenta
    ⟨⟨0x18, 0xB2, 0xB2⟩, .useCurrentFormat, false⟩,  -- cyan
    ⟨⟨0xB2, 0xB2, 0xB2⟩, .useCurrentFormat, false⟩,  -- white
    ⟨⟨0x68, 0x68, 0x68⟩, .useCurrentFormat, false⟩,  -- intense foreground
    ⟨⟨0xFF, 0xFF, 0xFF⟩, .useCurrentFormat, false⟩,  -- intense background
    ⟨⟨0x68, 0x68, 0x68⟩, .useCurrentFormat, false⟩,  -- intense black
    ⟨⟨0xFF, 0x54, 0x54⟩, .useCurrentFormat, false⟩,  -- intense red
    ⟨⟨0x54, 0xFF, 0x54⟩, .useCurrentFormat, false⟩,  -- intense green
    ⟨⟨0xFF, 0xFF, 0x54⟩, .useCurrentFormat, false⟩,  -- intense yellow
    ⟨⟨0x54, 0x54, 0xFF⟩, .useCurrentFormat, false⟩,  -- intense blue
    ⟨⟨0xFF, 0x54, 0xFF⟩, .useCurrentFormat, false⟩ ] -- intense magenta

/-- Modelled from the spec: the default constructor `ColorScheme()`
initialises the scheme to the default color set; opacity defaults to 1
(source header, `setOpacity` documentation: "Defaults to 1"). -/
def ColorScheme.default : ColorScheme :=
  { description := ""
    name := ""
    opacity := 1
    table := none
    randomTable := none
    randomizeBackground := false }

/-- `ColorScheme::colorTable`, modelled from the spec: the active color
table: the custom table when one has been set, otherwise the default
table. -/
def colorTable (s : ColorScheme) : List ColorEntry :=
  s.table.getD defaultTable

/-- The base (non-randomized) palette entry of slot `i`. -/
def baseEntry (s : ColorScheme) (i : Nat) : ColorEntry :=
  (colorTable s).getD i ⟨⟨0, 0, 0⟩, .useCurrentFormat, false⟩

/-- The randomization range of slot `i` (null when no table exists). -/
def randomRange (s : ColorScheme) (i : Nat) : RandomizationRange :=
  match s.randomTable with
  | none => {}
  | some t => t.getD i {}

/-- `ColorScheme::setColorTableEntry`, modelled from the spec:
materializes a custom table (cloned from the default table) and
overwrites slot `index`. -/
def setColorTableEntry (s : ColorScheme) (index : Nat) (entry : ColorEntry) : ColorScheme :=
  { s with table := some ((colorTable s).set index entry) }

/-- Modelled from the spec: the deterministic per-slot pseudorandom
source.  `k` distinguishes the hue, saturation and value components of
the per-slot triple; the output depends only on `(seed, i, k)`. -/
def randMix (seed i k : Nat) : Nat :=
  (seed * 2654435761 + i * 2246822519 + k * 3266489917 + 374761393) % 4294967296

/-- Modelled from the spec: a pseudorandom offset uniformly distributed
in `[-range/2, +range/2]`, derived deterministically from `(seed, i, k)`. -/
def randOffset (seed i k range : Nat) : Int :=
  if range = 0 then 0
  else (randMix seed i k % (2 * (range / 2) + 1) : Nat) - (range / 2 : Nat)

/-- Modelled from the spec: wrap a hue into `[0, 360)`. -/
def wrapHue (h : Int) : Nat := (h % 360).toNat

/-- Modelled from the spec: clamp a saturation or value into `[0, 255]`. -/
def clamp255 (x : Int) : Nat := (min (max x 0) 255).toNat

/-- Modelled from the spec: integer RGB→HSV conversion (hue in
`[0,360)`, saturation and value in `[0,255]`); the conversion primitive
is an external collaborator assumed available. -/
def rgbToHsv (c : RGB) : Nat × Nat × Nat :=
  let mx := max c.r (max c.g c.b)
  let mn := min c.r (min c.g c.b)
  let d := mx - mn
  let s := if mx = 0 then 0 else (d * 255) / mx
  let h : Int :=
    if d = 0 then 0
    else if mx = c.r then (60 * ((c.g : Int) - (c.b : Int))) / (d : Int)
    else if mx = c.g then 120 + (60 * ((c.b : Int) - (c.r : Int))) / (d : Int)
    else 240 + (60 * ((c.r : Int) - (c.g : Int))) / (d : Int)
  ((h % 360).toNat, s, mx)

/-- Modelled from the spec: integer HSV→RGB conversion, the inverse
collaborator of `rgbToHsv`. -/
def hsvToRgb (h s v : Nat) : RGB :=
  if s = 0 then ⟨v, v, v⟩
  else
    let rem := h % 60
    let p := (v * (255 - s)) / 255
    let q := (v * (255 * 60 - s * rem)) / (255 * 60)
    let t := (v * (255 * 60 - s * (60 - rem))) / (255 * 60)
    match (h / 60) % 6 with
    | 0 => ⟨v, t, p⟩
    | 1 => ⟨q, v, p⟩
    | 2 => ⟨p, v, t⟩
    | 3 => ⟨p, q, v⟩
    | 4 => ⟨t, p, v⟩
    | _ => ⟨v, p, q⟩

/-- Modelled from the spec: a slot is copied unchanged (no perturbation)
when the seed is 0 (seed 0 yields the non-randomized canonical colors,
§4.1 `foregroundColor`/`backgroundColor`), when no randomization table
exists, when the slot's range is null, or when the slot is the
background slot and background randomization is disabled. -/
def skipRandom (s : ColorScheme) (i : Nat) (seed : Nat) : Bool :=
  seed == 0 || s.randomTable.isNone || (randomRange s i).isNull ||
    (i == DEFAULT_BACK_COLOR && !s.randomizeBackground)

/-- `ColorScheme::colorEntry`, modelled from the spec (§4.1
`getColorTable`): either the base entry unchanged, or the base color
converted to HSV, perturbed by a deterministic per-slot triple (hue
wrapped into `[0,360)`, saturation and value clamped into `[0,255]`),
converted back to RGB; bold and transparent flags pass through. -/
def colorEntry (s : ColorScheme) (i : Nat) (seed : Nat) : ColorEntry :=
  let base := baseEntry s i
  if skipRandom s i seed then base
  else
    let range := randomRange s i
    let hsv := rgbToHsv base.color
    { color := hsvToRgb
        (wrapHue ((hsv.1 : Int) + randOffset seed i 0 range.hue))
        (clamp255 ((hsv.2.1 : Int) + randOffset seed i 1 range.saturation))
        (clamp255 ((hsv.2.2 : Int) + randOffset seed i 2 range.value))
      bold := base.bold
      transparent := base.transparent }

/-- `ColorScheme::getColorTable`, modelled from the spec: fills a buffer
of exactly `TABLE_COLORS` entries, slot by slot, from `colorEntry`. -/
def getColorTable (s : ColorScheme) (seed : Nat) : List ColorEntry :=
  (List.range TABLE_COLORS).map (fun i => colorEntry s i seed)

/-- `ColorScheme::backgroundColor`, modelled from the spec: the
background slot with seed 0 (non-randomized canonical color). -/
def backgroundColor (s : ColorScheme) : RGB :=
  (colorEntry s DEFAULT_BACK_COLOR 0).color

/-- `ColorScheme::foregroundColor`, modelled from the spec: slot 0 with
seed 0. -/
def foregroundColor (s : ColorScheme) : RGB :=
  (colorEntry s 0 0).color

/-- `ColorScheme::hasDarkBackground`, modelled from the spec: true iff
the background color converted to HSV has value < 127. -/
def hasDarkBackground (s : ColorScheme) : Bool :=
  decide ((rgbToHsv (backgroundColor s)).2.2 < 127)

/-- Split a character list at every occurrence of a separator. -/
def splitChar (sep : Char) : List Char → List (List Char)
  | [] => [[]]
  | c :: cs =>
    if c = sep then [] :: splitChar sep cs
    else
      match splitChar sep cs with
      | [] => [[c]]
      | w :: ws => (c :: w) :: ws

/-- Split a string at every occurrence of a separator character. -/
def splitString (sep : Char) (s : String) : List String :=
  (splitChar sep s.data).map String.mk

/-- Parse a run of decimal digits, accumulating from the left; any
non-digit character rejects the token. -/
def digitsToNat : List Char → Nat → Option Nat
  | [], acc => some acc
  | c :: cs, acc =>
    if c.isDigit then digitsToNat cs (acc * 10 + (c.toNat - 48))
    else none

/-- Parse a whole token as a decimal natural number; an empty token or
any non-digit character rejects it. -/
def parseNat (t : String) : Option Nat :=
  if t.data.isEmpty then none else digitsToNat t.data 0

/-- Whitespace-delimited tokens of a line (legacy `.schema` format). -/
def words (line : String) : List String :=
  (splitString ' ' line).filter (fun t => t ≠ "")

/-- Modelled from the spec: parse the seven fields of a legacy
`color <index> <r> <g> <b> <transparent:0|1> <bold:0|1>` line; any
wrong field count, unparsable numeric field, or out-of-range field
rejects the line. -/
def parseColorFields (tokens : List String) : Option (Nat × ColorEntry) :=
  match tokens with
  | [_, f1, f2, f3, f4, f5, f6] =>
    match parseNat f1, parseNat f2, parseNat f3, parseNat f4, parseNat f5,
        parseNat f6 with
    | some i, some r, some g, some b, some t, some bd =>
      if i < TABLE_COLORS && r ≤ 255 && g ≤ 255 && b ≤ 255 && t ≤ 1 && bd ≤ 1 then
        some (i, ⟨⟨r, g, b⟩, if bd = 1 then .bold else .normal, t = 1⟩)
      else none
    | _, _, _, _, _, _ => none
  | _ => none

/-- `KDE3ColorSchemeReader::readColorLine`, modelled from the spec: on a
successful parse of all six fields the slot is overwritten via
`setColorTableEntry`; a rejected line yields `none` and no mutation. -/
def readColorLine (line : String) (s : ColorScheme) : Option ColorScheme :=
  match parseColorFields (words line) with
  | some (i, e) => some (setColorTableEntry s i e)
  | none => none

/-- The text after the `title ` directive. -/
def titleRest (line : String) : String := String.mk (line.data.drop 6)

/-- `KDE3ColorSchemeReader::readTitleLine`, modelled from the spec: sets
the scheme's description to the remaining text of the line. -/
def readTitleLine (line : String) (s : ColorScheme) : Option ColorScheme :=
  if (words line).head? = some "title" then
    some { s with description := titleRest line }
  else none

/-- Modelled from the spec: per-line dispatch of the legacy reader on
the first whitespace-delimited token; a rejected or unrecognized line
leaves the scheme under construction unchanged. -/
def processLine (s : ColorScheme) (line : String) : ColorScheme :=
  match (words line).head? with
  | some tok =>
    if tok = "color" then (readColorLine line s).getD s
    else if tok = "title" then (readTitleLine line s).getD s
    else s
  | none => s

/-- Modelled from the spec: parse a whole legacy `.schema` text,
starting from a default-constructed scheme and folding every line. -/
def parseKDE3 (text : String) : ColorScheme :=
  (splitString (Char.ofNat 10) text).foldl processLine ColorScheme.default

/-- `KDE3ColorSchemeReader`: the reader holds the input device,
modelled as `none` when the device cannot be opened or read and
`some text` for a readable stream with the given contents. -/
structure KDE3ColorSchemeReader where
  device : Option String

/-- `KDE3ColorSchemeReader::read`, modelled from the spec: a null
result only when the underlying stream could not be opened or read;
every readable input yields a scheme. -/
def KDE3ColorSchemeReader.read (rd : KDE3ColorSchemeReader) : Option ColorScheme :=
  match rd.device with
  | none => none
  | some text => some (parseKDE3 text)

/-- A cached scheme of the manager together with whether its backing
file is read-only (a bundled scheme).  Modelled from the spec. -/
structure CacheEntry where
  scheme : ColorScheme
  readOnly : Bool
deriving DecidableEq

/-- `ColorSchemeManager` state: the name-indexed cache and the
have-loaded-all flag.  Modelled from the spec. -/
structure ManagerState where
  cache : List (String × CacheEntry)
  haveLoadedAll : Bool
deriving DecidableEq

/-- `ColorSchemeManager::defaultColorScheme`, modelled from the spec:
the one built-in scheme, produced without touching disk. -/
def defaultColorScheme : ColorScheme := ColorScheme.default

/-- `ColorSchemeManager::findColorScheme`, modelled from the spec.
`disk` is the external path-resolution-and-parse collaborator.  The
result is the new manager state, the scheme found (if any), and the
number of disk accesses performed: an empty name yields the default
scheme with no I/O; a cache hit yields the cached instance with no I/O;
a cache miss resolves from disk once, caching on success. -/
def findColorScheme (disk : String → Option CacheEntry) (st : ManagerState)
    (name : String) : ManagerState × Option ColorScheme × Nat :=
  if name = "" then (st, some defaultColorScheme, 0)
  else
    match List.lookup name st.cache with
    | some e => (st, some e.scheme, 0)
    | none =>
      match disk name with
      | some e => ({ st with cache := (name, e) :: st.cache }, some e.scheme, 1)
      | none => (st, none, 1)

/-- `ColorSchemeManager::deleteColorScheme`, modelled from the spec:
false (and no state change) when the name is unknown to the cache or
refers to a read-only bundled scheme; otherwise the cache entry is
removed and true returned. -/
def deleteColorScheme (st : ManagerState) (name : String) : ManagerState × Bool :=
  match List.lookup name st.cache with
  | none => (st, false)
  | some e =>
    if e.readOnly then (st, false)
    else ({ st with cache := st.cache.filter (fun p => !(p.1 == name)) }, true)

/-- Concrete randomization table used in examples: slot 2 has a
non-null range, all other slots are null. -/
def randTableW : List RandomizationRange :=
  (List.replicate TABLE_COLORS ({} : RandomizationRange)).set 2 ⟨10, 12, 14⟩

/-- Concrete scheme used in examples: the default scheme with the
randomization table `randTableW` attached. -/
def schemeW3 : ColorScheme :=
  { ColorScheme.default with randomTable := some randTableW }

/-- Concrete scheme used in examples: the background slot is the gray
RGB(127,127,127), whose HSV value is exactly 127. -/
def schemeGray : ColorScheme :=
  { ColorScheme.default with
      table := some (defaultTable.set 1 ⟨⟨127, 127, 127⟩, .useCurrentFormat, false⟩) }

/-- Concrete cache entry used in examples. -/
def entryW : CacheEntry := ⟨ColorScheme.default, true⟩

/-- Concrete disk collaborator used in examples: only the name `X`
resolves. -/
def diskW : String → Option CacheEntry :=
  fun n => if n = "X" then some entryW else none

/-- Concrete manager state used in examples: empty cache. -/
def stW0 : ManagerState := ⟨[], false⟩

/-- Concrete manager state used in examples: `X` cached. -/
def stW1 : ManagerState := ⟨[("X", entryW)], false⟩

/-- The pseudorandom offset lies within `[-range/2, +range/2]`. -/
theorem randOffset_bounds (seed i k range : Nat) :
    -((range : Int) / 2) ≤ randOffset seed i k range ∧
      randOffset seed i k range ≤ (range : Int) / 2 := by
  unfold randOffset
  split
  · rename_i h
    simp [h]
  · have h1 : randMix seed i k % (2 * (range / 2) + 1) < 2 * (range / 2) + 1 :=
      Nat.mod_lt _ (by omega)
    omega

/-- Wrapping a hue lands in `[0, 360)`. -/
theorem wrapHue_lt (x : Int) : wrapHue x < 360 := by
  unfold wrapHue
  have h1 : 0 ≤ x % 360 := Int.emod_nonneg x (by decide)
  have h2 : x % 360 < 360 := Int.emod_lt_of_pos x (by decide)
  omega

/-- Clamping a component lands in `[0, 255]`. -/
theorem clamp255_le (x : Int) : clamp255 x ≤ 255 := by
  unfold clamp255
  have h1 : min (max x 0) 255 ≤ 255 := min_le_right _ _
  have h0 : (0 : Int) ≤ min (max x 0) 255 := le_min (le_max_right x 0) (by decide)
  omega

/-- C1: for every scheme, slot index and seed, the entry produced by
`getColorTable` at that index is exactly `colorEntry` of the same
`(scheme, index, seed)`: both paths compute one deterministic function
of `(scheme, seed, index)`, so repeated calls with the same inputs
yield identical results. -/
theorem getColorTable_agrees_colorEntry (s : ColorScheme) (seed i : Nat)
    (h : i < TABLE_COLORS) :
    (getColorTable s seed)[i]? = some (colorEntry s i seed) := by
  unfold getColorTable
  rw [List.getElem?_map, List.getElem?_range h]
  rfl

/-- Witness for `getColorTable_agrees_colorEntry` at slot 3, seed 7. -/
theorem getColorTable_agrees_colorEntry_witness :
    (getColorTable ColorScheme.default 7)[3]? =
      some (colorEntry ColorScheme.default 3 7) :=
  getColorTable_agrees_colorEntry ColorScheme.default 7 3 (by decide)

/-- C2: when the scheme has no randomization table, or the slot's range
is null, or the slot is the background slot with background
randomization disabled, `colorEntry` returns the base entry unchanged,
for every seed. -/
theorem colorEntry_base_when_no_randomization (s : ColorScheme) (i seed : Nat)
    (hi : i < TABLE_COLORS)
    (h : s.randomTable = none ∨ (randomRange s i).isNull = true ∨
         (i = DEFAULT_BACK_COLOR ∧ s.randomizeBackground = false)) :
    colorEntry s i seed = baseEntry s i := by
  have hskip : skipRandom s i seed = true := by
    unfold skipRandom
    rcases h with h | h | ⟨h1, h2⟩
    · simp [h]
    · simp [h]
    · subst h1
      simp [h2]
  unfold colorEntry
  simp [hskip]

/-- Witness for `colorEntry_base_when_no_randomization` at slot 0,
seed 5, on the default scheme (which has no randomization table). -/
theorem colorEntry_base_when_no_randomization_witness :
    colorEntry ColorScheme.default 0 5 = baseEntry ColorScheme.default 0 :=
  colorEntry_base_when_no_randomization ColorScheme.default 0 5 (by decide)
    (Or.inl rfl)

/-- C5: the KDE 3 reader fails only when the underlying stream is
unreadable; every readable input, empty or fully malformed included,
yields a scheme rather than a failure. -/
theorem kde3_read_total (text : String) :
    KDE3ColorSchemeReader.read ⟨some text⟩ = some (parseKDE3 text) ∧
    KDE3ColorSchemeReader.read ⟨none⟩ = none :=
  ⟨rfl, rfl⟩

/-- C9: `findColorScheme` with the empty name returns exactly the
default scheme (non-null), with the manager state unchanged and zero
disk accesses. -/
theorem findColorScheme_empty_default (disk : String → Option CacheEntry)
    (st : ManagerState) :
    findColorScheme disk st "" = (st, some defaultColorScheme, 0) := by
  unfold findColorScheme
  rw [if_pos rfl]

/-- C10: a default-constructed `ColorScheme` has opacity 1, with no
call to `setOpacity`. -/
theorem default_opacity_one : ColorScheme.default.opacity = 1 := rfl

/-- C3: for a slot whose randomization range is non-null (and which is
not excluded as a non-randomized background), with a nonzero seed, the
perturbed entry is the base color converted to HSV, with a hue offset
in `[-range.hue/2, +range.hue/2]` wrapped into `[0,360)`, a saturation
offset in `[-range.saturation/2, +range.saturation/2]` and a value
offset in `[-range.value/2, +range.value/2]` each clamped into
`[0,255]`, converted back to RGB; the bold and transparent flags are
returned unchanged. -/
theorem colorEntry_randomized_shape (s : ColorScheme) (i seed : Nat)
    (hseed : seed ≠ 0)
    (htab : s.randomTable ≠ none)
    (hnull : (randomRange s i).isNull = false)
    (hbg : i = DEFAULT_BACK_COLOR → s.randomizeBackground = true) :
    ∃ dh ds dv : Int,
      -(((randomRange s i).hue : Int) / 2) ≤ dh ∧
      dh ≤ ((randomRange s i).hue : Int) / 2 ∧
      -(((randomRange s i).saturation : Int) / 2) ≤ ds ∧
      ds ≤ ((randomRange s i).saturation : Int) / 2 ∧
      -(((randomRange s i).value : Int) / 2) ≤ dv ∧
      dv ≤ ((randomRange s i).value : Int) / 2 ∧
      wrapHue (((rgbToHsv (baseEntry s i).color).1 : Int) + dh) < 360 ∧
      clamp255 (((rgbToHsv (baseEntry s i).color).2.1 : Int) + ds) ≤ 255 ∧
      clamp255 (((rgbToHsv (baseEntry s i).color).2.2 : Int) + dv) ≤ 255 ∧
      colorEntry s i seed =
        { color := hsvToRgb
            (wrapHue (((rgbToHsv (baseEntry s i).color).1 : Int) + dh))
            (clamp255 (((rgbToHsv (baseEntry s i).color).2.1 : Int) + ds))
            (clamp255 (((rgbToHsv (baseEntry s i).color).2.2 : Int) + dv))
          bold := (baseEntry s i).bold
          transparent := (baseEntry s i).transparent } := by
  refine ⟨randOffset seed i 0 (randomRange s i).hue,
          randOffset seed i 1 (randomRange s i).saturation,
          randOffset seed i 2 (randomRange s i).value,
          (randOffset_bounds _ _ _ _).1, (randOffset_bounds _ _ _ _).2,
          (randOffset_bounds _ _ _ _).1, (randOffset_bounds _ _ _ _).2,
          (randOffset_bounds _ _ _ _).1, (randOffset_bounds _ _ _ _).2,
          wrapHue_lt _, clamp255_le _, clamp255_le _, ?_⟩
  have h0 : (seed == 0) = false := by
    simp only [beq_eq_false_iff_ne, ne_eq]
    exact hseed
  have h1 : s.randomTable.isNone = false := by
    rcases hx : s.randomTable with _ | t
    · exact absurd hx htab
    · rfl
  have h2 : (i == DEFAULT_BACK_COLOR && !s.randomizeBackground) = false := by
    by_cases hi : i = DEFAULT_BACK_COLOR
    · simp [hi, hbg hi]
    · simp [hi]
  have hskip : skipRandom s i seed = false := by
    unfold skipRandom
    rw [h0, h1, hnull, h2]
    rfl
  unfold colorEntry
  simp [hskip]

/-- Witness for `colorEntry_randomized_shape` on `schemeW3`, slot 2,
seed 1. -/
theorem colorEntry_randomized_shape_witness :
    ∃ dh ds dv : Int,
      -(((randomRange schemeW3 2).hue : Int) / 2) ≤ dh ∧
      dh ≤ ((randomRange schemeW3 2).hue : Int) / 2 ∧
      -(((randomRange schemeW3 2).saturation : Int) / 2) ≤ ds ∧
      ds ≤ ((randomRange schemeW3 2).saturation : Int) / 2 ∧
      -(((randomRange schemeW3 2).value : Int) / 2) ≤ dv ∧
      dv ≤ ((randomRange schemeW3 2).value : Int) / 2 ∧
      wrapHue (((rgbToHsv (baseEntry schemeW3 2).color).1 : Int) + dh) < 360 ∧
      clamp255 (((rgbToHsv (baseEntry schemeW3 2).color).2.1 : Int) + ds) ≤ 255 ∧
      clamp255 (((rgbToHsv (baseEntry schemeW3 2).color).2.2 : Int) + dv) ≤ 255 ∧
      colorEntry schemeW3 2 1 =
        { color := hsvToRgb
            (wrapHue (((rgbToHsv (baseEntry schemeW3 2).color).1 : Int) + dh))
            (clamp255 (((rgbToHsv (baseEntry schemeW3 2).color).2.1 : Int) + ds))
            (clamp255 (((rgbToHsv (baseEntry schemeW3 2).color).2.2 : Int) + dv))
          bold := (baseEntry schemeW3 2).bold
          transparent := (baseEntry schemeW3 2).transparent } :=
  colorEntry_randomized_shape schemeW3 2 1 (by decide) (by decide) (by decide)
    (by decide)

/-- C4: in the legacy reader, a `color` line that fails to parse is
rejected and skipped without mutating the scheme under construction;
and the input `"color 0 10 20 30 0 1\ntitle MyScheme\nbogus line\n"`
parses to slot 0 = RGB(10,20,30) with bold forced on and transparent
false, description `MyScheme`, with no error. -/
theorem legacy_reader_recovery :
    (∀ (s : ColorScheme) (line : String),
        (words line).head? = some "color" →
        readColorLine line s = none →
        processLine s line = s) ∧
    baseEntry (parseKDE3 "color 0 10 20 30 0 1\ntitle MyScheme\nbogus line\n") 0 =
        ⟨⟨10, 20, 30⟩, FontWeight.bold, false⟩ ∧
    (parseKDE3 "color 0 10 20 30 0 1\ntitle MyScheme\nbogus line\n").description =
        "MyScheme" ∧
    (KDE3ColorSchemeReader.read
        ⟨some "color 0 10 20 30 0 1\ntitle MyScheme\nbogus line\n"⟩).isSome = true := by
  refine ⟨?_, by decide, by decide, by decide⟩
  intro s line h1 h2
  unfold processLine
  rw [h1]
  simp [h2]

/-- Witness for `legacy_reader_recovery`: a `color` line with the wrong
field count leaves the scheme unchanged. -/
theorem legacy_reader_recovery_witness :
    processLine ColorScheme.default "color x" = ColorScheme.default :=
  legacy_reader_recovery.1 ColorScheme.default "color x" (by decide) (by decide)


/-- C6: once `findColorScheme` has resolved a non-empty name, a
subsequent call with that name returns the same cached scheme, leaves
the manager state unchanged, and performs no disk access. -/
theorem findColorScheme_cached (disk : String → Option CacheEntry)
    (st st1 : ManagerState) (name : String) (sch : ColorScheme) (k : Nat)
    (hname : name ≠ "")
    (h : findColorScheme disk st name = (st1, some sch, k)) :
    findColorScheme disk st1 name = (st1, some sch, 0) := by
  unfold findColorScheme at h ⊢
  rw [if_neg hname] at h ⊢
  cases hl : List.lookup name st.cache with
  | some e =>
    rw [hl] at h
    have h' : ((st, some e.scheme, 0) : ManagerState × Option ColorScheme × Nat) =
        (st1, some sch, k) := h
    obtain ⟨h1, h2, -⟩ : st = st1 ∧ some e.scheme = some sch ∧ (0 : Nat) = k := by
      simpa [Prod.ext_iff] using h'
    subst h1
    rw [hl]
    show ((st, some e.scheme, 0) : ManagerState × Option ColorScheme × Nat) =
      (st, some sch, 0)
    rw [h2]
  | none =>
    rw [hl] at h
    cases hd : disk name with
    | some e =>
      rw [hd] at h
      have h' : ((({ st with cache := (name, e) :: st.cache } : ManagerState),
          some e.scheme, 1) : ManagerState × Option ColorScheme × Nat) =
          (st1, some sch, k) := h
      obtain ⟨h1, h2, -⟩ :
          ({ st with cache := (name, e) :: st.cache } : ManagerState) = st1 ∧
            some e.scheme = some sch ∧ (1 : Nat) = k := by
        simpa [Prod.ext_iff] using h'
      subst h1
      have hcons : List.lookup name ((name, e) :: st.cache) = some e := by
        simp [List.lookup]
      rw [show ({ st with cache := (name, e) :: st.cache } : ManagerState).cache =
            (name, e) :: st.cache from rfl, hcons]
      show ((({ st with cache := (name, e) :: st.cache } : ManagerState),
          some e.scheme, 0) : ManagerState × Option ColorScheme × Nat) =
        ({ st with cache := (name, e) :: st.cache }, some sch, 0)
      rw [h2]
    | none =>
      rw [hd] at h
      have h' : ((st, none, 1) : ManagerState × Option ColorScheme × Nat) =
          (st1, some sch, k) := h
      simp [Prod.ext_iff] at h'

/-- Witness for `findColorScheme_cached`: after resolving `X` from
disk, a second lookup returns the cached scheme with no disk access. -/
theorem findColorScheme_cached_witness :
    findColorScheme diskW stW1 "X" = (stW1, some ColorScheme.default, 0) :=
  findColorScheme_cached diskW stW0 stW1 "X" ColorScheme.default 1 (by decide)
    (by decide)

/-- C7: `deleteColorScheme` returns false when the name is unknown to
the cache or refers to a read-only bundled scheme, and in that case
leaves the manager state (in particular the cache's size) unchanged. -/
theorem deleteColorScheme_denied (st : ManagerState) (name : String)
    (h : List.lookup name st.cache = none ∨
         ∃ e, List.lookup name st.cache = some e ∧ e.readOnly = true) :
    deleteColorScheme st name = (st, false) ∧
    ((deleteColorScheme st name).1).cache.length = st.cache.length := by
  have hmain : deleteColorScheme st name = (st, false) := by
    unfold deleteColorScheme
    rcases h with h | ⟨e, he, hr⟩
    · rw [h]
    · rw [he]
      show (if e.readOnly = true then ((st, false) : ManagerState × Bool)
          else ({ st with cache := st.cache.filter (fun p => !(p.1 == name)) }, true)) =
        (st, false)
      rw [if_pos hr]
  exact ⟨hmain, by rw [hmain]⟩

/-- Witness for `deleteColorScheme_denied`: deleting an unknown name
from an empty cache fails and changes nothing. -/
theorem deleteColorScheme_denied_witness :
    deleteColorScheme ⟨[], false⟩ "doesNotExist" = (⟨[], false⟩, false) ∧
    ((deleteColorScheme ⟨[], false⟩ "doesNotExist").1).cache.length =
      (⟨[], false⟩ : ManagerState).cache.length :=
  deleteColorScheme_denied ⟨[], false⟩ "doesNotExist" (Or.inl rfl)

/-- C8: `hasDarkBackground` holds exactly when the background color's
HSV value is strictly below 127, and is false at value exactly 127. -/
theorem hasDarkBackground_iff_value (s : ColorScheme) :
    (hasDarkBackground s = true ↔ (rgbToHsv (backgroundColor s)).2.2 < 127) ∧
    ((rgbToHsv (backgroundColor s)).2.2 = 127 → hasDarkBackground s = false) := by
  constructor
  · simp [hasDarkBackground]
  · intro h
    simp [hasDarkBackground, h]

/-- Witness for `hasDarkBackground_iff_value`: a background of HSV
value exactly 127 is not dark. -/
theorem hasDarkBackground_iff_value_witness :
    hasDarkBackground schemeGray = false :=
  (hasDarkBackground_iff_value schemeGray).2 (by decide)
